import Mathlib

/-!
Shallow embedding of the PitchPrice hotel-rate scraper core
(`src/scraper/scraper.py`) and proofs about its rate-extraction,
single-night inference, fetch-retry and session-recovery logic.

Strings are modelled as Lean `String`s (lists of characters); the
Python regular-expression scan for currency-tagged amounts, substring
containment, lower-casing and whitespace splitting are implemented
directly on character lists.  Python dict-shaped results become
structures; exceptions become explicit outcome values.
-/

namespace PitchPrice

/-! ## String utilities (Python `str.lower`, `in`, `str.split`) -/

/-- Python `pat in hay` substring test. -/
def containsStr (hay pat : String) : Bool :=
  hay.data.tails.any (fun t => pat.data.isPrefixOf t)

/-- Python `s.lower()` (ASCII, which covers all strings in the source). -/
def toLowerStr (s : String) : String :=
  String.mk (s.data.map Char.toLower)

/-- Helper for Python `str.split()`: split on whitespace runs, dropping
empty pieces.  `acc` holds the current word reversed. -/
def splitWsGo : List Char → List Char → List (List Char)
  | [], acc => if acc.isEmpty then [] else [acc.reverse]
  | c :: cs, acc =>
    if c.isWhitespace then
      if acc.isEmpty then splitWsGo cs [] else acc.reverse :: splitWsGo cs []
    else splitWsGo cs (c :: acc)

/-- Python `s.split()` with no argument. -/
def pySplit (s : String) : List String :=
  (splitWsGo s.data []).map String.mk

/-! ## Price-candidate scanner

Embeds `re.findall(r'(?:CA\$|CAD|C\$)\s*([\d,]+)', card_text)` followed by
`int(p.replace(',', ''))` on each captured group. -/

/-- Strip an exact prefix, returning the remainder on success. -/
def dropPre : List Char → List Char → Option (List Char)
  | [], s => some s
  | _ :: _, [] => none
  | p :: ps, c :: cs => if p = c then dropPre ps cs else none

theorem dropPre_length {pre s r : List Char} (h : dropPre pre s = some r) :
    r.length + pre.length = s.length := by
  induction pre generalizing s with
  | nil =>
    simp only [dropPre, Option.some.injEq] at h
    simp [← h]
  | cons p ps ih =>
    cases s with
    | nil => simp [dropPre] at h
    | cons c cs =>
      simp only [dropPre] at h
      split at h
      · have := ih h
        simp only [List.length_cons]
        omega
      · exact absurd h (by simp)

/-- Try the currency-marker alternatives `CA$`, `CAD`, `C$` in the order the
regex alternation tries them. -/
def tryCurrency (s : List Char) : Option (List Char) :=
  match dropPre ['C', 'A', '$'] s with
  | some r => some r
  | none =>
    match dropPre ['C', 'A', 'D'] s with
    | some r => some r
    | none => dropPre ['C', '$'] s

theorem tryCurrency_length {s r : List Char} (h : tryCurrency s = some r) :
    r.length < s.length := by
  unfold tryCurrency at h
  split at h
  · rename_i heq
    have := dropPre_length heq
    simp only [Option.some.injEq] at h
    subst h
    simp at this
    omega
  · split at h
    · rename_i heq
      have := dropPre_length heq
      simp only [Option.some.injEq] at h
      subst h
      simp at this
      omega
    · have := dropPre_length h
      simp at this
      omega

/-- The character class `[\d,]`. -/
def isDigitOrComma (c : Char) : Bool := c.isDigit || c = ','

theorem dropWhile_len_le (p : Char → Bool) (l : List Char) :
    (l.dropWhile p).length ≤ l.length := by
  induction l with
  | nil => simp [List.dropWhile]
  | cons c cs ih =>
    simp only [List.dropWhile]
    split
    · simp only [List.length_cons]; omega
    · simp

/-- Non-overlapping left-to-right scan of the regex
`(?:CA\$|CAD|C\$)\s*([\d,]+)`, returning the captured groups.  Every step
consumes at least one character, so the scan is written with a fuel counter
(structurally recursive, hence kernel-computable); `findTokensGo_fuel` below
shows any fuel of at least the text length gives the same answer, so the
counter does not restrict the scan. -/
def findTokensGo : Nat → List Char → List (List Char)
  | 0, _ => []
  | _, [] => []
  | fuel + 1, c :: cs =>
    match tryCurrency (c :: cs) with
    | some rest =>
      let rest2 := rest.dropWhile Char.isWhitespace
      let tok := rest2.takeWhile isDigitOrComma
      if tok.isEmpty then findTokensGo fuel cs
      else tok :: findTokensGo fuel (rest2.drop tok.length)
    | none => findTokensGo fuel cs

theorem findTokensGo_fuel :
    ∀ (f1 : Nat) {s : List Char} (f2 : Nat), s.length ≤ f1 → s.length ≤ f2 →
      findTokensGo f1 s = findTokensGo f2 s := by
  intro f1
  induction f1 with
  | zero =>
    intro s f2 h1 _
    have hs : s = [] := List.eq_nil_of_length_eq_zero (Nat.le_zero.mp h1)
    subst hs
    cases f2 <;> rfl
  | succ a ih =>
    intro s f2 h1 h2
    cases s with
    | nil => cases f2 <;> rfl
    | cons c cs =>
      cases f2 with
      | zero => simp at h2
      | succ b =>
        simp only [List.length_cons] at h1 h2
        cases h : tryCurrency (c :: cs) with
        | none =>
          simp only [findTokensGo, h]
          exact ih b (by omega) (by omega)
        | some rest =>
          have hlen := tryCurrency_length h
          simp only [List.length_cons] at hlen
          have hd : (rest.dropWhile Char.isWhitespace).length ≤ rest.length :=
            dropWhile_len_le _ _
          have hdd : ((rest.dropWhile Char.isWhitespace).drop
              ((rest.dropWhile Char.isWhitespace).takeWhile isDigitOrComma).length).length ≤
              (rest.dropWhile Char.isWhitespace).length := by
            rw [List.length_drop]; omega
          simp only [findTokensGo, h]
          by_cases he : ((rest.dropWhile Char.isWhitespace).takeWhile isDigitOrComma).isEmpty
          · rw [if_pos he, if_pos he]
            exact ih b (by omega) (by omega)
          · rw [if_neg he, if_neg he]
            exact congrArg _ (ih b (by omega) (by omega))

/-- The full scan with sufficient fuel. -/
def findTokens (s : List Char) : List (List Char) := findTokensGo s.length s

/-- `int(p.replace(',', ''))` on a captured `[\d,]+` group: `none` models the
`ValueError` raised when the group holds no digit. -/
def parseTok (tok : List Char) : Option Nat :=
  let ds := tok.filter (fun c => c ≠ ',')
  if ds.isEmpty then none
  else some (ds.foldl (fun n c => 10 * n + (c.toNat - 48)) 0)

/-- All currency-tagged amounts in a card text, in document order; `none`
models a `ValueError` while converting a captured group. -/
def scanPrices (cardText : String) : Option (List Nat) :=
  (findTokens cardText.data).mapM parseTok

/-! ## Data model -/

/-- The `availability_status` values used by the scraper. -/
inductive Availability where
  | unknown
  | available
  | sold_out
  | not_found
  | error
  | available_calculated
deriving DecidableEq

/-- Result dict of `extract_rate_from_booking` (and of `fetch_booking_rate`,
whose retry-exhaustion dict carries no `currency` key, hence the `Option`). -/
structure ExtractResult where
  rate : Option Nat
  currency : Option String
  availability_status : Availability
  error : Option String
deriving DecidableEq

/-! ## Plausibility windows and rate disambiguation
(`extract_rate_from_booking`, lines 349–393) -/

/-- `[p for p in prices_int if 150 <= p <= 2500]` (single-night window). -/
def singleFilter (prices : List Nat) : List Nat :=
  prices.filter (fun p => decide (150 ≤ p ∧ p ≤ 2500))

/-- `[p for p in prices_int if min_total <= p <= max_total]` with
`min_total = 300 * num_nights`, `max_total = 3000 * num_nights`. -/
def primaryFilter (numNights : Nat) (prices : List Nat) : List Nat :=
  prices.filter (fun p => decide (300 * numNights ≤ p ∧ p ≤ 3000 * numNights))

/-- `[p for p in prices_int if p >= 400 * num_nights]` (multi-night fallback). -/
def fallbackFilter (numNights : Nat) (prices : List Nat) : List Nat :=
  prices.filter (fun p => decide (400 * numNights ≤ p))

/-- Python `min` on a non-empty list (0 on the empty list, unreachable). -/
def pymin (l : List Nat) : Nat :=
  match l with
  | [] => 0
  | h :: t => t.foldl Nat.min h

/-- Insertion step for `sorted`. -/
def insertSorted (x : Nat) : List Nat → List Nat
  | [] => [x]
  | y :: ys => if x ≤ y then x :: y :: ys else y :: insertSorted x ys

/-- Python `sorted` (ascending). -/
def sortNat (l : List Nat) : List Nat := l.foldr insertSorted []

/-- `sorted(prices)[len(prices) // 2]`. -/
def pyMedian (l : List Nat) : Nat := (sortNat l).getD (l.length / 2) 0

/-- The repeated-else-median choice the source applies to a windowed
candidate list: smallest amount occurring more than once in the full
scanned list, else the median of the windowed list. -/
def pickRate (source windowed : List Nat) : Nat :=
  let repeated := windowed.filter (fun p => decide (1 < source.count p))
  if repeated.isEmpty then pyMedian windowed else pymin repeated

/-- Rate chosen from the scanned amounts of a matched card
(`extract_rate_from_booking` lines 350–393): `none` when no amount
survives filtering (no rate is set and the card loop breaks). -/
def cardRate (numNights : Nat) (prices_int : List Nat) : Option Nat :=
  if prices_int.isEmpty then none
  else if numNights = 1 then
    let single := singleFilter prices_int
    if single.isEmpty then none else some (pickRate prices_int single)
  else
    let total := primaryFilter numNights prices_int
    if total.isEmpty then
      let reasonable := fallbackFilter numNights prices_int
      if reasonable.isEmpty then none else some (pymin reasonable)
    else some (pickRate prices_int total)

/-- The set of amounts the plausibility filter keeps, as the source computes
it: the single-night window for 1 night; for more nights the primary window,
or the fallback tier when the primary window is empty. -/
def windowFilter (numNights : Nat) (prices : List Nat) : List Nat :=
  if numNights = 1 then singleFilter prices
  else if (primaryFilter numNights prices).isEmpty then fallbackFilter numNights prices
  else primaryFilter numNights prices

/-- The §4.1 plausibility window as the spec words it, for comparison with
`windowFilter`: for 1 night amounts in [150, 2500]; for N > 1 nights amounts
in [300·N, 3000·N], with a fallback tier of amounts ≥ 400·N considered only
when the primary window yields no candidates. -/
def spec_window (numNights : Nat) (prices : List Nat) (a : Nat) : Prop :=
  (numNights = 1 → 150 ≤ a ∧ a ≤ 2500) ∧
  (2 ≤ numNights →
    (300 * numNights ≤ a ∧ a ≤ 3000 * numNights) ∨
    ((∀ b ∈ prices, ¬(300 * numNights ≤ b ∧ b ≤ 3000 * numNights)) ∧
      400 * numNights ≤ a))

/-- The disambiguation rule as the spec words it, applied to whichever window
yielded candidates: the smallest amount recurring more than once in the
source text, else the median of the windowed amounts. -/
def disambiguate_spec (source windowed : List Nat) : Option Nat :=
  if windowed.isEmpty then none
  else
    let repeated := windowed.filter (fun p => decide (1 < source.count p))
    if repeated.isEmpty then some (pyMedian windowed) else some (pymin repeated)

/-! ## Hotel-card matching and per-card extraction
(`extract_rate_from_booking`, lines 308–426) -/

/-- `[w.lower() for w in hotel_name.split() if len(w) > 3][:3]`. -/
def keywordsOf (hotelName : String) : List String :=
  (((pySplit hotelName).filter (fun w => decide (3 < w.length))).map toLowerStr).take 3

/-- The sold-out test on a lower-cased card text (lines 338–342). -/
def cardSoldOut (lowerText : String) : Bool :=
  containsStr lowerText "no availability" ||
  containsStr lowerText "unavailable" ||
  containsStr lowerText "this property is unavailable"

/-- Outcome of one iteration of the card loop: `skip` covers both a
non-matching card (`matches < 2`) and a card skipped by the per-card
exception handler. -/
inductive CardOutcome where
  | skip
  | soldOut
  | rated (r : Option Nat)
deriving DecidableEq

/-- One iteration of the card loop (lines 327–398). -/
def processCard (keyWords : List String) (numNights : Nat) (cardText : String) :
    CardOutcome :=
  let lower := toLowerStr cardText
  let hits := keyWords.countP (fun w => containsStr lower w)
  if hits < 2 then .skip
  else if cardSoldOut lower then .soldOut
  else
    match scanPrices cardText with
    | none => .skip
    | some prices => .rated (cardRate numNights prices)

/-- The card loop: first card that is not skipped decides the outcome. -/
def extractLoop (keyWords : List String) (numNights : Nat) :
    List String → CardOutcome
  | [] => .skip
  | c :: cs =>
    match processCard keyWords numNights c with
    | .skip => extractLoop keyWords numNights cs
    | o => o

/-- Page-wide classification when no rate was set and the card loop did not
declare the card sold out (lines 400–409). -/
def pageFallback (pageText : String) : ExtractResult :=
  let lower := toLowerStr pageText
  if containsStr lower "no availability" || containsStr lower "sold out" then
    ⟨none, some "CAD", .sold_out, none⟩
  else
    ⟨none, some "CAD", .not_found, some "Hotel not found in results"⟩

/-- `extract_rate_from_booking(page, hotel_name, num_nights)`, with the page
given as the inner texts of its first result cards plus its body text. -/
def extract_rate_from_booking (cards : List String) (pageText : String)
    (hotelName : String) (numNights : Nat) : ExtractResult :=
  match extractLoop (keywordsOf hotelName) numNights (cards.take 15) with
  | .soldOut => ⟨none, some "CAD", .sold_out, none⟩
  | .rated (some r) => ⟨some r, some "CAD", .available, none⟩
  | .rated none => pageFallback pageText
  | .skip => pageFallback pageText

/-! ## Corruption classification (`is_browser_corruption_error`, lines 36–56) -/

/-- A Python exception: its type name and its `str(e)` message. -/
structure PyExc where
  ty : String
  msg : String
deriving DecidableEq

/-- `f"{type(e).__name__}: {e}"`. -/
def formatTyped (e : PyExc) : String := e.ty ++ ": " ++ e.msg

/-- An ASCII apostrophe, kept out of string literals. -/
def apos : String := String.singleton (Char.ofNat 39)

/-- The corruption-indicator substring list, verbatim from the source. -/
def corruption_indicators : List String :=
  [apos ++ "dict" ++ apos ++ " object has no attribute " ++ apos ++ "_object" ++ apos,
   "object has been collected",
   "target page, context or browser has been closed",
   "browser has been closed",
   "context has been closed",
   "page has been closed",
   "connection closed",
   "target closed"]

/-- `is_browser_corruption_error(error)`: case-insensitive substring match of
any indicator against `str(error)`. -/
def is_browser_corruption_error (e : PyExc) : Bool :=
  corruption_indicators.any
    (fun ind => containsStr (toLowerStr e.msg) (toLowerStr ind))

/-! ## Navigation/fetch client (`fetch_booking_rate`, lines 429–503)

One attempt is modelled by its observable outcome: the navigation/wait
phase raised a `PlaywrightTimeout`, raised some other exception, or
completed and produced an extraction result. -/

/-- Outcome of the try-block of one attempt of `fetch_booking_rate`. -/
inductive FetchStep where
  | timeout (e : PyExc)
  | exc (e : PyExc)
  | extracted (r : ExtractResult)

/-- A definitive extraction (line 465): a rate was read, or the status is
`sold_out` or `not_found`. -/
def definitive (r : ExtractResult) : Bool :=
  r.rate.isSome ||
  decide (r.availability_status = .sold_out) ||
  decide (r.availability_status = .not_found)

/-- How one attempt resolves: return a result, raise the distinguished
corruption condition, or fail retryably. -/
inductive AttemptRes where
  | ret (r : ExtractResult)
  | fail (e : PyExc)
  | corrupt (e : PyExc)

/-- Classification of one attempt, following the source: a definitive result
returns; an extraction `error` status is re-raised as `Exception` and hits the
generic handler, which escalates on a corruption signature; a
`PlaywrightTimeout` is always retryable and is never corruption-checked. -/
def classifyStep : FetchStep → AttemptRes
  | .timeout e => .fail e
  | .exc e => if is_browser_corruption_error e then .corrupt e else .fail e
  | .extracted r =>
    if definitive r then .ret r
    else if r.availability_status = .error then
      let e : PyExc := ⟨"Exception", r.error.getD "None"⟩
      if is_browser_corruption_error e then .corrupt e else .fail e
    else .ret r

/-- The dict returned when all retries are exhausted (lines 499–503). -/
def exhaustedResult (maxRetries : Nat) (lastErr : Option PyExc) : ExtractResult :=
  ⟨none, none, .error,
    some ("Failed after " ++ toString maxRetries ++ " attempts: " ++
      formatTyped (lastErr.getD ⟨"NoneType", "None"⟩))⟩

/-- What a fetch call yields: a result dict, or a raised
`BrowserCorruptionError` carrying its message, together with the linear
backoff sleeps performed between attempts. -/
structure FetchReturn where
  result : Except String ExtractResult
  backoffs : List Nat

/-- The retry loop of `fetch_booking_rate`: `k` is the 1-based attempt
number, the second argument the number of attempts still allowed. -/
def fetchGo (steps : Nat → FetchStep) (maxRetries : Nat) :
    Nat → Nat → Option PyExc → FetchReturn
  | _, 0, lastErr => ⟨.ok (exhaustedResult maxRetries lastErr), []⟩
  | k, left + 1, _ =>
    match classifyStep (steps k) with
    | .ret r => ⟨.ok r, []⟩
    | .corrupt e => ⟨.error ("Browser corrupted: " ++ formatTyped e), []⟩
    | .fail e =>
      let res := fetchGo steps maxRetries (k + 1) left (some e)
      if left = 0 then res else { res with backoffs := 2 * k :: res.backoffs }

/-- `fetch_booking_rate(...)` with the per-attempt outcomes abstracted as
`steps` (attempt `k`'s outcome is `steps k`). -/
def fetch_booking_rate (steps : Nat → FetchStep) (maxRetries : Nat) : FetchReturn :=
  fetchGo steps maxRetries 1 maxRetries none

/-! ## Single-night inference (`calculate_rate_from_multi_night`,
lines 506–613)

The four underlying fetches are abstracted by the rates they return
(`None` or a positive total); the reconciliation logic is embedded
exactly, including the Python truthiness tests on rates and on the
calculated differences. -/

/-- Result dict of `calculate_rate_from_multi_night` (rates may be negative,
so they live in `Int`). -/
structure CalcResult where
  rate : Option Int
  currency : String
  availability_status : Availability
  error : Option String
deriving DecidableEq

/-- `calculated_rate = two_night["rate"] - one_night["rate"]`, computed only
when both rates are truthy (present and nonzero), as the source's
`if a.get("rate") and b.get("rate")` does. -/
def calcOf (total ref : Option Nat) : Option Int :=
  match total, ref with
  | some t, some r => if t ≠ 0 ∧ r ≠ 0 then some ((t : Int) - (r : Int)) else none
  | _, _ => none

/-- Python truthiness of an optional integer. -/
def optTruthy (o : Option Int) : Bool :=
  match o with
  | none => false
  | some v => decide (v ≠ 0)

/-- `int(round((c1 + c2) / 2))`: the midpoint of two integers rounded with
Python's round-half-to-even, as a function of the sum `s = c1 + c2`. -/
def halfRoundEven (s : Int) : Int :=
  if s % 2 = 0 then s / 2
  else if ((s - 1) / 2) % 2 = 0 then (s - 1) / 2 else (s - 1) / 2 + 1

/-- `calculate_rate_from_multi_night`, given the rates the four fetches
returned (2-night total over [T−1,T+1), 1-night rate for [T−1,T),
2-night total over [T,T+2), 1-night rate for [T+1,T+2)). -/
def calculate_rate_from_multi_night
    (twoNight1 oneNightPrev twoNight2 oneNightNext : Option Nat) : CalcResult :=
  let calc1 := calcOf twoNight1 oneNightPrev
  let calc2 := calcOf twoNight2 oneNightNext
  let c1 := calc1.getD 0
  let c2 := calc2.getD 0
  if optTruthy calc1 && optTruthy calc2 then
    let diff := (c1 - c2).natAbs
    let avg := halfRoundEven (c1 + c2)
    if diff ≤ 50 then ⟨some avg, "CAD", .available_calculated, none⟩
    else
      ⟨some avg, "CAD", .available_calculated,
        some ("Calculation methods differ by $" ++ toString diff)⟩
  else if optTruthy calc1 then ⟨some c1, "CAD", .available_calculated, none⟩
  else if optTruthy calc2 then ⟨some c2, "CAD", .available_calculated, none⟩
  else ⟨none, "CAD", .not_found, some "Could not calculate rate from multi-night bookings"⟩

/-! ## Session-controller corruption recovery (`run_scraper`, lines 889–938) -/

/-- The per-request record the orchestrator appends (restricted to the fields
the claims are about). -/
structure ScrapeRecord where
  rate : Option Int
  availability_status : Availability
  error : Option String
deriving DecidableEq

/-- `max_corruption_retries` in `run_scraper`. -/
def max_corruption_retries : Nat := 2

/-- The corruption-recovery loop for one request: `attempts i` is the outcome
of the `i`-th invocation of `scrape_hotel_rate` (`.error msg` models a raised
`BrowserCorruptionError`), `remaining` the number of recovery rounds still
allowed.  Returns the recorded result and the number of browser restarts
performed. -/
def requestGo (attempts : Nat → Except String ScrapeRecord) :
    Nat → Nat → ScrapeRecord × Nat
  | i, 0 =>
    match attempts i with
    | .ok r => (r, 0)
    | .error msg => (⟨none, .error, some msg⟩, 0)
  | i, rem + 1 =>
    match attempts i with
    | .ok r => (r, 0)
    | .error _ =>
      let p := requestGo attempts (i + 1) rem
      (p.1, p.2 + 1)

/-- Processing of one (hotel, date) request by the orchestrator. -/
def processRequest (attempts : Nat → Except String ScrapeRecord) :
    ScrapeRecord × Nat :=
  requestGo attempts 0 max_corruption_retries

/-- The orchestrator over a run: one recorded result per request, whatever
each request's attempts did. -/
def runRequests (reqs : List (Nat → Except String ScrapeRecord)) :
    List ScrapeRecord :=
  reqs.map (fun a => (processRequest a).1)

/-! ## Claims -/

theorem mem_singleFilter {prices : List Nat} {a : Nat} :
    a ∈ singleFilter prices ↔ a ∈ prices ∧ (150 ≤ a ∧ a ≤ 2500) := by
  simp [singleFilter, List.mem_filter]

theorem mem_primaryFilter {n : Nat} {prices : List Nat} {a : Nat} :
    a ∈ primaryFilter n prices ↔ a ∈ prices ∧ (300 * n ≤ a ∧ a ≤ 3000 * n) := by
  simp [primaryFilter, List.mem_filter]

theorem mem_fallbackFilter {n : Nat} {prices : List Nat} {a : Nat} :
    a ∈ fallbackFilter n prices ↔ a ∈ prices ∧ 400 * n ≤ a := by
  simp [fallbackFilter, List.mem_filter]

theorem primaryFilter_isEmpty_iff {n : Nat} {prices : List Nat} :
    (primaryFilter n prices).isEmpty = true ↔
      ∀ b ∈ prices, ¬(300 * n ≤ b ∧ b ≤ 3000 * n) := by
  simp [primaryFilter, List.isEmpty_iff, List.filter_eq_nil_iff]

/-- Claim C1: for every nights count N ≥ 1 and extracted amount `a`, `a`
survives the plausibility filter if and only if it lies in the §4.1 window
for N: for N = 1, 150 ≤ a ≤ 2500; for N > 1, 300·N ≤ a ≤ 3000·N inclusive,
with a fallback tier of amounts ≥ 400·N considered only when the primary
window yields no candidates. -/
theorem claim_C1 (numNights : Nat) (prices : List Nat) (a : Nat)
    (hn : 1 ≤ numNights) :
    a ∈ windowFilter numNights prices ↔ a ∈ prices ∧ spec_window numNights prices a := by
  by_cases h1 : numNights = 1
  · subst h1
    unfold windowFilter spec_window
    rw [if_pos rfl, mem_singleFilter]
    constructor
    · rintro ⟨ha, hw⟩
      exact ⟨ha, fun _ => hw, fun h => absurd h (by omega)⟩
    · rintro ⟨ha, hsp⟩
      exact ⟨ha, hsp.1 rfl⟩
  · have h2 : 2 ≤ numNights := by omega
    unfold windowFilter spec_window
    rw [if_neg h1]
    by_cases hp : (primaryFilter numNights prices).isEmpty
    · rw [if_pos hp, mem_fallbackFilter]
      have hall := primaryFilter_isEmpty_iff.mp hp
      constructor
      · rintro ⟨ha, hw⟩
        exact ⟨ha, fun h => absurd h (by omega), fun _ => Or.inr ⟨hall, hw⟩⟩
      · rintro ⟨ha, _, hsp⟩
        rcases hsp h2 with hin | ⟨_, hfb⟩
        · exact absurd hin (hall a ha)
        · exact ⟨ha, hfb⟩
    · rw [if_neg hp, mem_primaryFilter]
      constructor
      · rintro ⟨ha, hw⟩
        exact ⟨ha, fun h => absurd h (by omega), fun _ => Or.inl hw⟩
      · rintro ⟨ha, _, hsp⟩
        rcases hsp h2 with hin | ⟨hall, _⟩
        · exact ⟨ha, hin⟩
        · exact absurd (primaryFilter_isEmpty_iff.mpr hall) hp

/-- Witness for C1 at N = 2, prices [700, 100], a = 700. -/
theorem claim_C1_witness :
    700 ∈ windowFilter 2 [700, 100] ∧ spec_window 2 [700, 100] 700 :=
  ⟨by decide, ((claim_C1 2 [700, 100] 700 (by decide)).mp (by decide)).2⟩

theorem cardRate_one {prices : List Nat} (h : (singleFilter prices).isEmpty = false) :
    cardRate 1 prices = some (pickRate prices (singleFilter prices)) := by
  have hpne : prices.isEmpty = false := by
    cases prices
    · simp [singleFilter] at h
    · rfl
  simp [cardRate, hpne, h]

theorem cardRate_primary {n : Nat} {prices : List Nat} (hn : n ≠ 1)
    (h : (primaryFilter n prices).isEmpty = false) :
    cardRate n prices = some (pickRate prices (primaryFilter n prices)) := by
  have hpne : prices.isEmpty = false := by
    cases prices
    · simp [primaryFilter] at h
    · rfl
  simp [cardRate, hpne, hn, h]

theorem cardRate_fallback {n : Nat} {prices : List Nat} (hn : n ≠ 1)
    (hp : (primaryFilter n prices).isEmpty = true)
    (hf : (fallbackFilter n prices).isEmpty = false) :
    cardRate n prices = some (pymin (fallbackFilter n prices)) := by
  have hpne : prices.isEmpty = false := by
    cases prices
    · simp [fallbackFilter] at hf
    · rfl
  simp [cardRate, hpne, hn, hp, hf]

theorem windowFilter_one (prices : List Nat) :
    windowFilter 1 prices = singleFilter prices := by
  simp [windowFilter]

theorem windowFilter_primary {n : Nat} {prices : List Nat} (hn : n ≠ 1)
    (h : (primaryFilter n prices).isEmpty = false) :
    windowFilter n prices = primaryFilter n prices := by
  simp [windowFilter, hn, h]

theorem windowFilter_fallback {n : Nat} {prices : List Nat} (hn : n ≠ 1)
    (h : (primaryFilter n prices).isEmpty = true) :
    windowFilter n prices = fallbackFilter n prices := by
  simp [windowFilter, hn, h]

theorem disambiguate_spec_eq {source windowed : List Nat}
    (h : windowed.isEmpty = false) :
    disambiguate_spec source windowed = some (pickRate source windowed) := by
  unfold disambiguate_spec pickRate
  simp only [h, Bool.false_eq_true, if_false, apply_ite Option.some]

/-- Counterexample to claim C2 as stated: for nights = 2 and scanned amounts
[6500, 7000, 7000] the (fallback-tier) windowed candidates are all three
amounts and 7000 is the smallest amount recurring more than once, yet the
code returns 6500 — in the fallback tier it takes the minimum amount and
never applies the repeated-then-median rule. -/
theorem claim_C2_counterexample :
    windowFilter 2 [6500, 7000, 7000] = [6500, 7000, 7000] ∧
    disambiguate_spec [6500, 7000, 7000] (windowFilter 2 [6500, 7000, 7000]) = some 7000 ∧
    cardRate 2 [6500, 7000, 7000] = some 6500 ∧
    (6500 : Nat) ≠ 7000 := by
  refine ⟨by decide, by decide, by decide, by decide⟩

/-- Claim C2 (amended): for candidates from the single-night or the primary
multi-night window, the disambiguator returns the smallest amount recurring
more than once in the scanned text, else the median of the windowed amounts;
candidates from the fallback tier instead yield the minimum surviving
amount.  Card text "CA$412 CA$412 CA$899" with nights = 1 yields rate 412
and status available. -/
theorem claim_C2 :
    (∀ prices : List Nat, (singleFilter prices).isEmpty = false →
      cardRate 1 prices = disambiguate_spec prices (windowFilter 1 prices)) ∧
    (∀ n : Nat, ∀ prices : List Nat, 2 ≤ n →
      (primaryFilter n prices).isEmpty = false →
      cardRate n prices = disambiguate_spec prices (windowFilter n prices)) ∧
    (∀ n : Nat, ∀ prices : List Nat, 2 ≤ n →
      (primaryFilter n prices).isEmpty = true →
      (fallbackFilter n prices).isEmpty = false →
      cardRate n prices = some (pymin (windowFilter n prices))) ∧
    scanPrices "CA$412 CA$412 CA$899" = some [412, 412, 899] ∧
    extract_rate_from_booking ["Grand Plaza Hotel CA$412 CA$412 CA$899"] "body"
      "Grand Plaza" 1 = ⟨some 412, some "CAD", .available, none⟩ := by
  refine ⟨?_, ?_, ?_, by decide, by decide⟩
  · intro prices h
    rw [cardRate_one h, windowFilter_one, disambiguate_spec_eq h]
  · intro n prices hn hp
    have hne : n ≠ 1 := by omega
    rw [cardRate_primary hne hp, windowFilter_primary hne hp, disambiguate_spec_eq hp]
  · intro n prices hn hp hf
    have hne : n ≠ 1 := by omega
    rw [cardRate_fallback hne hp hf, windowFilter_fallback hne hp]

/-- Witness for C2 at nights = 1, scanned amounts [412, 412, 899]. -/
theorem claim_C2_witness :
    cardRate 1 [412, 412, 899] =
      disambiguate_spec [412, 412, 899] (windowFilter 1 [412, 412, 899]) :=
  claim_C2.1 [412, 412, 899] (by decide)

/-- Counterexample to claim C3 as stated: with a two-night total of 600 and a
previous-night rate of 600, method A produces the value 0 and method B
produces nothing, so the claim prescribes rate 0 with status
available_calculated; the code's truthiness test treats the zero calc as
absent and returns not_found. -/
theorem claim_C3_counterexample :
    calcOf (some 600) (some 600) = some 0 ∧
    calculate_rate_from_multi_night (some 600) (some 600) none none =
      ⟨none, "CAD", .not_found,
        some "Could not calculate rate from multi-night bookings"⟩ ∧
    Availability.not_found ≠ Availability.available_calculated := by
  refine ⟨by decide, by decide, by decide⟩

/-- Claim C3 (amended): in the single-night inference solver a method counts
as producing a value only when its calc is present and nonzero (the code's
truthiness test).  If both methods produce a value the result is the midpoint
rounded to a nearest integer with status available_calculated, with no error
when |calcA − calcB| ≤ 50 and an error recording the delta when the
difference exceeds 50 (boundary: delta 50 unflagged, delta 51 flagged); if
exactly one method produces a value, that value is used with status
available_calculated; if neither does, the status is not_found with an
explanatory error. -/
theorem claim_C3 (r1 r2 r3 r4 : Option Nat) :
    (∀ c1 c2 : Int, calcOf r1 r2 = some c1 → c1 ≠ 0 →
      calcOf r3 r4 = some c2 → c2 ≠ 0 →
      calculate_rate_from_multi_night r1 r2 r3 r4 =
        ⟨some (halfRoundEven (c1 + c2)), "CAD", .available_calculated,
          if (c1 - c2).natAbs ≤ 50 then none
          else some ("Calculation methods differ by $" ++ toString (c1 - c2).natAbs)⟩) ∧
    (∀ c1 : Int, calcOf r1 r2 = some c1 → c1 ≠ 0 →
      optTruthy (calcOf r3 r4) = false →
      calculate_rate_from_multi_night r1 r2 r3 r4 =
        ⟨some c1, "CAD", .available_calculated, none⟩) ∧
    (∀ c2 : Int, optTruthy (calcOf r1 r2) = false →
      calcOf r3 r4 = some c2 → c2 ≠ 0 →
      calculate_rate_from_multi_night r1 r2 r3 r4 =
        ⟨some c2, "CAD", .available_calculated, none⟩) ∧
    (optTruthy (calcOf r1 r2) = false → optTruthy (calcOf r3 r4) = false →
      calculate_rate_from_multi_night r1 r2 r3 r4 =
        ⟨none, "CAD", .not_found,
          some "Could not calculate rate from multi-night bookings"⟩) ∧
    (∀ s : Int, (2 * halfRoundEven s - s).natAbs ≤ 1) ∧
    calculate_rate_from_multi_night (some 1000) (some 390) (some 1000) (some 340) =
      ⟨some 635, "CAD", .available_calculated, none⟩ ∧
    calculate_rate_from_multi_night (some 1000) (some 390) (some 1000) (some 339) =
      ⟨some 636, "CAD", .available_calculated,
        some "Calculation methods differ by $51"⟩ := by
  have truthy_some : ∀ c : Int, c ≠ 0 → optTruthy (some c) = true := by
    intro c h; simp [optTruthy, h]
  refine ⟨?_, ?_, ?_, ?_, ?_, by decide, by decide⟩
  · intro c1 c2 h1 hc1 h2 hc2
    simp only [calculate_rate_from_multi_night, h1, h2, truthy_some c1 hc1,
      truthy_some c2 hc2, Bool.and_self, if_true, Option.getD_some]
    split <;> rfl
  · intro c1 h1 hc1 h3
    simp [calculate_rate_from_multi_night, h1, truthy_some c1 hc1, h3]
  · intro c2 h1 h2 hc2
    simp [calculate_rate_from_multi_night, h1, h2, truthy_some c2 hc2]
  · intro h1 h2
    simp [calculate_rate_from_multi_night, h1, h2]
  · intro s
    unfold halfRoundEven
    split
    · omega
    · split <;> omega

/-- Witness for C3: the spec's end-to-end inference scenario (calcA = 610,
calcB = 650, delta 40) yields rate 630 with no discrepancy error. -/
theorem claim_C3_witness :
    calculate_rate_from_multi_night (some 1000) (some 390) (some 1000) (some 350) =
      ⟨some 630, "CAD", .available_calculated, none⟩ := by
  have h := (claim_C3 (some 1000) (some 390) (some 1000) (some 350)).1 610 650
    (by decide) (by decide) (by decide) (by decide)
  rw [h]
  decide

/-- Claim C4: for every matched card (at least 2 keyword hits) whose text
contains a sold-out/unavailable phrase, extraction returns status sold_out
with rate = None immediately and performs no price disambiguation on that
card, regardless of what currency amounts also appear in the text. -/
theorem claim_C4 :
    (∀ (keyWords : List String) (numNights : Nat) (cardText : String),
      2 ≤ keyWords.countP (fun w => containsStr (toLowerStr cardText) w) →
      cardSoldOut (toLowerStr cardText) = true →
      processCard keyWords numNights cardText = .soldOut) ∧
    (∀ (cards : List String) (pageText hotelName : String) (numNights : Nat),
      extractLoop (keywordsOf hotelName) numNights (cards.take 15) = .soldOut →
      extract_rate_from_booking cards pageText hotelName numNights =
        ⟨none, some "CAD", .sold_out, none⟩) := by
  constructor
  · intro kw n text hm hs
    unfold processCard
    rw [if_neg (by omega), if_pos hs]
  · intro cards pageText hotel n h
    simp only [extract_rate_from_booking, h]

/-- Witness for C4: the spec's end-to-end scenario 2, a matching card whose
text contains "This property is unavailable" alongside prices. -/
theorem claim_C4_witness :
    processCard (keywordsOf "Grand Plaza") 1
      "Grand Plaza Hotel This property is unavailable CA$999 CA$999" = .soldOut ∧
    extract_rate_from_booking
      ["Grand Plaza Hotel This property is unavailable CA$999 CA$999"] "body"
      "Grand Plaza" 1 = ⟨none, some "CAD", .sold_out, none⟩ :=
  ⟨claim_C4.1 (keywordsOf "Grand Plaza") 1 _ (by decide) (by decide),
   claim_C4.2 _ "body" "Grand Plaza" 1 (by decide)⟩

theorem pageFallback_cases (pageText : String) :
    pageFallback pageText = ⟨none, some "CAD", .sold_out, none⟩ ∨
    pageFallback pageText =
      ⟨none, some "CAD", .not_found, some "Hotel not found in results"⟩ := by
  simp only [pageFallback]
  split
  · exact Or.inl rfl
  · exact Or.inr rfl

theorem extract_cases (cards : List String) (pageText hotelName : String) (n : Nat) :
    extract_rate_from_booking cards pageText hotelName n =
      ⟨none, some "CAD", .sold_out, none⟩ ∨
    (∃ r, extract_rate_from_booking cards pageText hotelName n =
      ⟨some r, some "CAD", .available, none⟩) ∨
    extract_rate_from_booking cards pageText hotelName n = pageFallback pageText := by
  unfold extract_rate_from_booking
  cases h : extractLoop (keywordsOf hotelName) n (cards.take 15) with
  | skip => exact Or.inr (Or.inr rfl)
  | soldOut => exact Or.inl rfl
  | rated r =>
    cases r with
    | none => exact Or.inr (Or.inr rfl)
    | some v => exact Or.inr (Or.inl ⟨v, rfl⟩)

/-- Counterexample to claim C7 as stated: a card that matches the hotel
("Grand Royal") but whose only scanned amount (100) survives no window is
matched-but-priceless, yet extraction returns not_found with the
"Hotel not found in results" error — not status available with rate = None.
-/
theorem claim_C7_counterexample :
    processCard (keywordsOf "Grand Royal") 1 "Grand Royal Hotel CA$100" = .rated none ∧
    extract_rate_from_booking ["Grand Royal Hotel CA$100"] "results page"
      "Grand Royal" 1 =
      ⟨none, some "CAD", .not_found, some "Hotel not found in results"⟩ ∧
    Availability.not_found ≠ Availability.available := by
  refine ⟨by decide, by decide, by decide⟩

/-- Claim C7 (amended): if no candidate amount survives filtering, extraction
never returns status available: both the matched-but-priceless case and the
no-match case fall through to the page-wide classification, which yields
sold_out when the page text shows a sold-out phrase and otherwise not_found
with the error "Hotel not found in results"; status available always carries
a rate. -/
theorem claim_C7 (cards : List String) (pageText hotelName : String) (n : Nat) :
    ((extract_rate_from_booking cards pageText hotelName n).rate = none →
      extract_rate_from_booking cards pageText hotelName n =
        ⟨none, some "CAD", .sold_out, none⟩ ∨
      extract_rate_from_booking cards pageText hotelName n =
        ⟨none, some "CAD", .not_found, some "Hotel not found in results"⟩) ∧
    ((extract_rate_from_booking cards pageText hotelName n).availability_status =
        .available →
      (extract_rate_from_booking cards pageText hotelName n).rate ≠ none) := by
  rcases extract_cases cards pageText hotelName n with h | ⟨r, h⟩ | h
  · rw [h]
    exact ⟨fun _ => Or.inl rfl, by simp⟩
  · rw [h]
    exact ⟨fun hr => by simp at hr, by simp⟩
  · rw [h]
    rcases pageFallback_cases pageText with h2 | h2 <;> rw [h2]
    · exact ⟨fun _ => Or.inl rfl, by simp⟩
    · exact ⟨fun _ => Or.inr rfl, by simp⟩

/-- Witness for C7 on a page with one matching, priceless card. -/
theorem claim_C7_witness :
    extract_rate_from_booking ["Palace Suites CA$80"] "page body" "Palace Suites" 1 =
      ⟨none, some "CAD", .sold_out, none⟩ ∨
    extract_rate_from_booking ["Palace Suites CA$80"] "page body" "Palace Suites" 1 =
      ⟨none, some "CAD", .not_found, some "Hotel not found in results"⟩ :=
  (claim_C7 ["Palace Suites CA$80"] "page body" "Palace Suites" 1).1 (by decide)

/-- Counterexample to claim C5 as stated: a `PlaywrightTimeout` whose message
matches the corruption signature "target closed" is caught by the timeout
handler, which never consults the corruption check — the fetch backs off 2s,
retries, and succeeds on attempt 2 instead of raising the session-corrupted
condition. -/
theorem claim_C5_counterexample :
    is_browser_corruption_error ⟨"TimeoutError", "Target closed"⟩ = true ∧
    fetch_booking_rate
      (fun k => if k = 1 then .timeout ⟨"TimeoutError", "Target closed"⟩
        else .extracted ⟨some 500, some "CAD", .available, none⟩) 2 =
      ⟨.ok ⟨some 500, some "CAD", .available, none⟩, [2]⟩ := by
  constructor
  · decide
  · rfl

/-- Claim C5 (amended): for every exception that reaches the generic
exception handler (any non-`PlaywrightTimeout` exception, including a
re-raised extraction error) whose message matches a corruption signature,
`fetch_booking_rate` never takes its local retry path: the attempt
classifies as corrupt, and whenever an attempt classifies as corrupt the
loop makes no further attempt, sleeps no backoff, and raises the
distinguished `BrowserCorruptionError`.  A `PlaywrightTimeout` is retried
like any transient failure even when its message matches a signature. -/
theorem claim_C5 :
    (∀ e : PyExc, is_browser_corruption_error e = true →
      classifyStep (.exc e) = .corrupt e) ∧
    (∀ (r : ExtractResult), definitive r = false →
      r.availability_status = .error →
      is_browser_corruption_error ⟨"Exception", r.error.getD "None"⟩ = true →
      classifyStep (.extracted r) = .corrupt ⟨"Exception", r.error.getD "None"⟩) ∧
    (∀ (steps : Nat → FetchStep) (maxRetries k left : Nat)
      (lastErr : Option PyExc) (e : PyExc),
      classifyStep (steps k) = .corrupt e →
      fetchGo steps maxRetries k (left + 1) lastErr =
        ⟨.error ("Browser corrupted: " ++ formatTyped e), []⟩) ∧
    (∀ e : PyExc, classifyStep (.timeout e) = .fail e) := by
  refine ⟨?_, ?_, ?_, fun _ => rfl⟩
  · intro e h
    simp [classifyStep, h]
  · intro r hdef herr hcorr
    simp [classifyStep, hdef, herr, hcorr]
  · intro steps maxRetries k left lastErr e h
    simp only [fetchGo, h]

/-- Witness for C5: a corruption-signature exception raised on the very first
attempt makes the whole fetch raise immediately with no backoff. -/
theorem claim_C5_witness :
    fetch_booking_rate (fun _ => .exc ⟨"Error", "Target closed"⟩) 3 =
      ⟨.error ("Browser corrupted: " ++ formatTyped ⟨"Error", "Target closed"⟩), []⟩ :=
  claim_C5.2.2.1 (fun _ => .exc ⟨"Error", "Target closed"⟩) 3 1 2 none
    ⟨"Error", "Target closed"⟩ (claim_C5.1 ⟨"Error", "Target closed"⟩ (by decide))

theorem classify_definitive {r : ExtractResult} (h : definitive r = true) :
    classifyStep (.extracted r) = .ret r := by
  simp [classifyStep, h]

theorem fetchGo_exhaust (steps : Nat → FetchStep) (maxRetries : Nat) (E : Nat → PyExc) :
    ∀ (left k : Nat) (lastErr : Option PyExc),
      1 ≤ left →
      (∀ j, k ≤ j → j < k + left → classifyStep (steps j) = .fail (E j)) →
      fetchGo steps maxRetries k left lastErr =
        ⟨.ok (exhaustedResult maxRetries (some (E (k + left - 1)))),
         (List.range (left - 1)).map (fun i => 2 * (k + i))⟩ := by
  intro left
  induction left with
  | zero => intro k lastErr h1 _; omega
  | succ left ih =>
    intro k lastErr _ hfail
    simp only [fetchGo, hfail k (Nat.le_refl k) (by omega)]
    cases left with
    | zero =>
      simp only [if_pos rfl, fetchGo]
      simp
    | succ left2 =>
      rw [if_neg (by omega)]
      rw [ih (k + 1) (some (E k)) (by omega)
        (fun j hj1 hj2 => hfail j (by omega) (by omega))]
      have hidx : k + 1 + (left2 + 1) - 1 = k + (left2 + 1 + 1) - 1 := by omega
      rw [hidx]
      have hback : 2 * k :: (List.range (left2 + 1 - 1)).map (fun i => 2 * (k + 1 + i)) =
          (List.range (left2 + 1 + 1 - 1)).map (fun i => 2 * (k + i)) := by
        simp only [Nat.add_sub_cancel, List.range_succ_eq_map, List.map_cons,
          List.map_map, Nat.add_zero]
        congr 1
        apply List.map_congr_left
        intro a _
        simp only [Function.comp_apply]
        omega
      rw [hback]

/-- Claim C6: an attempt whose extraction yields a definitive result (a
non-None rate, or status sold_out or not_found) returns immediately with no
further attempt and no backoff; only transport-level failures and extraction
exceptions trigger a retry, with linear backoff 2·attempt-number seconds
between attempts; exhausting all max_retries attempts without a corruption
signal returns status error with rate = None and an error message recording
the retry exhaustion and the last underlying error. -/
theorem claim_C6 :
    (∀ (steps : Nat → FetchStep) (maxRetries k left : Nat)
      (lastErr : Option PyExc) (r : ExtractResult),
      steps k = .extracted r → definitive r = true →
      fetchGo steps maxRetries k (left + 1) lastErr = ⟨.ok r, []⟩) ∧
    (∀ (steps : Nat → FetchStep) (maxRetries : Nat) (E : Nat → PyExc),
      1 ≤ maxRetries →
      (∀ j, 1 ≤ j → j ≤ maxRetries → classifyStep (steps j) = .fail (E j)) →
      fetch_booking_rate steps maxRetries =
        ⟨.ok ⟨none, none, .error,
          some ("Failed after " ++ toString maxRetries ++ " attempts: " ++
            formatTyped (E maxRetries))⟩,
         (List.range (maxRetries - 1)).map (fun i => 2 * (1 + i))⟩) := by
  constructor
  · intro steps maxRetries k left lastErr r hstep hdef
    simp only [fetchGo, hstep, classify_definitive hdef]
  · intro steps maxRetries E h1 hfail
    unfold fetch_booking_rate
    cases maxRetries with
    | zero => omega
    | succ m =>
      rw [fetchGo_exhaust steps (m + 1) E (m + 1) 1 none (by omega)
        (fun j hj1 hj2 => hfail j hj1 (by omega))]
      have hix : 1 + (m + 1) - 1 = m + 1 := by omega
      rw [hix]
      rfl

/-- Witness for C6: the spec's end-to-end scenario 4 — three consecutive
transient timeouts with max_retries = 3 give status error, a message citing
the exhausted retries and the last error, backoffs 2s then 4s, and no
corruption escalation. -/
theorem claim_C6_witness :
    fetch_booking_rate (fun _ => .timeout ⟨"TimeoutError", "Timeout 60000ms exceeded"⟩) 3 =
      ⟨.ok ⟨none, none, .error,
        some "Failed after 3 attempts: TimeoutError: Timeout 60000ms exceeded"⟩,
       [2, 4]⟩ := by
  have h := claim_C6.2 (fun _ => .timeout ⟨"TimeoutError", "Timeout 60000ms exceeded"⟩) 3
    (fun _ => ⟨"TimeoutError", "Timeout 60000ms exceeded"⟩) (by omega) (fun j _ _ => rfl)
  rw [h]
  rfl

theorem requestGo_le (attempts : Nat → Except String ScrapeRecord) :
    ∀ (remaining i : Nat), (requestGo attempts i remaining).2 ≤ remaining := by
  intro remaining
  induction remaining with
  | zero =>
    intro i
    simp only [requestGo]
    cases attempts i <;> simp
  | succ rem ih =>
    intro i
    simp only [requestGo]
    cases h : attempts i with
    | ok r => simp
    | error msg =>
      have := ih (i + 1)
      simp only []
      omega

theorem requestGo_exhaust (attempts : Nat → Except String ScrapeRecord)
    (msgs : Nat → String) :
    ∀ (remaining i : Nat),
      (∀ j, j ≤ remaining → attempts (i + j) = .error (msgs (i + j))) →
      requestGo attempts i remaining =
        (⟨none, .error, some (msgs (i + remaining))⟩, remaining) := by
  intro remaining
  induction remaining with
  | zero =>
    intro i h
    have h0 := h 0 (Nat.le_refl 0)
    rw [Nat.add_zero] at h0
    simp only [requestGo, h0, Nat.add_zero]
  | succ rem ih =>
    intro i h
    have h0 := h 0 (by omega)
    rw [Nat.add_zero] at h0
    simp only [requestGo, h0]
    rw [ih (i + 1) (fun j hj => by
      have hh := h (j + 1) (by omega)
      rwa [show i + (j + 1) = i + 1 + j by omega] at hh)]
    have hix : i + 1 + rem = i + (rem + 1) := by omega
    rw [hix]

/-- Claim C8: for every request, the Session Controller performs at most 2
corruption-recovery attempts (teardown, pause, relaunch, retry of the
originating request); if they are exhausted, that request is recorded with
status error carrying the last corruption message, and the run proceeds to
the next date/hotel — one recorded result per request — instead of
aborting. -/
theorem claim_C8 :
    (∀ attempts : Nat → Except String ScrapeRecord,
      (processRequest attempts).2 ≤ max_corruption_retries) ∧
    (∀ (attempts : Nat → Except String ScrapeRecord) (msgs : Nat → String),
      (∀ i, i ≤ max_corruption_retries → attempts i = .error (msgs i)) →
      processRequest attempts =
        (⟨none, .error, some (msgs max_corruption_retries)⟩,
          max_corruption_retries)) ∧
    (∀ reqs : List (Nat → Except String ScrapeRecord),
      (runRequests reqs).length = reqs.length) := by
  refine ⟨?_, ?_, ?_⟩
  · intro attempts
    exact requestGo_le attempts max_corruption_retries 0
  · intro attempts msgs h
    unfold processRequest
    rw [requestGo_exhaust attempts msgs max_corruption_retries 0 (fun j hj => by
      rw [Nat.zero_add]
      exact h j hj)]
    rw [Nat.zero_add]
  · intro reqs
    simp [runRequests]

/-- Witness for C8: three consecutive corruption escalations exhaust the two
recovery rounds and record an error result carrying the last message. -/
theorem claim_C8_witness :
    processRequest (fun i => .error ("Browser corrupted: attempt " ++ toString i)) =
      (⟨none, .error, some "Browser corrupted: attempt 2"⟩, 2) := by
  have h := claim_C8.2.1 (fun i => .error ("Browser corrupted: attempt " ++ toString i))
    (fun i => "Browser corrupted: attempt " ++ toString i) (fun i _ => rfl)
  rw [h]
  rfl

theorem classify_ret {s : FetchStep} {r : ExtractResult}
    (h : classifyStep s = .ret r) : s = .extracted r := by
  cases s with
  | timeout e => simp [classifyStep] at h
  | exc e =>
    simp only [classifyStep] at h
    split at h <;> simp at h
  | extracted r0 =>
    simp only [classifyStep] at h
    split at h
    · simp only [AttemptRes.ret.injEq] at h
      rw [h]
    · split at h
      · split at h <;> simp at h
      · simp only [AttemptRes.ret.injEq] at h
        rw [h]

theorem fetchGo_ok_inv (steps : Nat → FetchStep) (maxRetries : Nat)
    (hsteps : ∀ j r0, steps j = .extracted r0 →
      (r0.availability_status = .sold_out ∨ r0.availability_status = .not_found) →
      r0.rate = none) :
    ∀ (left k : Nat) (lastErr : Option PyExc) (r : ExtractResult),
      (fetchGo steps maxRetries k left lastErr).result = .ok r →
      (r.availability_status = .sold_out ∨ r.availability_status = .not_found) →
      r.rate = none := by
  intro left
  induction left with
  | zero =>
    intro k lastErr r h _
    simp only [fetchGo, Except.ok.injEq] at h
    rw [← h]
    rfl
  | succ left ih =>
    intro k lastErr r h hst
    simp only [fetchGo] at h
    cases hc : classifyStep (steps k) with
    | ret r0 =>
      simp only [hc, Except.ok.injEq] at h
      subst h
      exact hsteps k r0 (classify_ret hc) hst
    | corrupt e =>
      simp only [hc] at h
      cases h
    | fail e =>
      simp only [hc] at h
      have hres : (if left = 0 then fetchGo steps maxRetries (k + 1) left (some e)
          else { fetchGo steps maxRetries (k + 1) left (some e) with
            backoffs := 2 * k :: (fetchGo steps maxRetries (k + 1) left (some e)).backoffs }).result =
          (fetchGo steps maxRetries (k + 1) left (some e)).result := by
        split <;> rfl
      rw [hres] at h
      exact ih (k + 1) (some e) r h hst

/-- Claim C9: every result produced by extraction, fetch, or inference
satisfies the invariant that availability_status ∈ {sold_out, not_found}
implies rate = None (for the fetch client, given that every extraction
result fed to it satisfies the invariant). -/
theorem claim_C9 :
    (∀ (cards : List String) (pageText hotelName : String) (n : Nat),
      ((extract_rate_from_booking cards pageText hotelName n).availability_status =
          .sold_out ∨
        (extract_rate_from_booking cards pageText hotelName n).availability_status =
          .not_found) →
      (extract_rate_from_booking cards pageText hotelName n).rate = none) ∧
    (∀ (steps : Nat → FetchStep) (maxRetries : Nat) (r : ExtractResult),
      (∀ j r0, steps j = .extracted r0 →
        (r0.availability_status = .sold_out ∨ r0.availability_status = .not_found) →
        r0.rate = none) →
      (fetch_booking_rate steps maxRetries).result = .ok r →
      (r.availability_status = .sold_out ∨ r.availability_status = .not_found) →
      r.rate = none) ∧
    (∀ r1 r2 r3 r4 : Option Nat,
      ((calculate_rate_from_multi_night r1 r2 r3 r4).availability_status = .sold_out ∨
        (calculate_rate_from_multi_night r1 r2 r3 r4).availability_status = .not_found) →
      (calculate_rate_from_multi_night r1 r2 r3 r4).rate = none) := by
  refine ⟨?_, ?_, ?_⟩
  · intro cards pageText hotel n h
    rcases extract_cases cards pageText hotel n with he | ⟨r, he⟩ | he
    · rw [he]
    · rw [he] at h
      simp at h
    · rcases pageFallback_cases pageText with h2 | h2 <;> rw [he, h2]
  · intro steps maxRetries r hsteps h hst
    exact fetchGo_ok_inv steps maxRetries hsteps maxRetries 1 none r h hst
  · intro r1 r2 r3 r4
    simp only [calculate_rate_from_multi_night]
    split
    · split <;> intro h <;> simp at h
    · split
      · intro h; simp at h
      · split
        · intro h; simp at h
        · intro _; rfl

/-- Witness for C9: a sold-out card yields a rate-free result. -/
theorem claim_C9_witness :
    (extract_rate_from_booking ["Grand Plaza Hotel no availability CA$300"] "p"
      "Grand Plaza" 1).rate = none :=
  claim_C9.1 ["Grand Plaza Hotel no availability CA$300"] "p" "Grand Plaza" 1
    (Or.inl (by decide))

/-- Claim C10: for every hotel name containing fewer than two
whitespace-separated words longer than 3 characters, the card matcher's
acceptance test (at least 2 keyword hits) can never be satisfied, so no
result card is ever matched for that hotel and extraction can never return
a directly-read rate with status available, regardless of page content. -/
theorem claim_C10 (hotelName : String)
    (h : ((pySplit hotelName).filter (fun w => decide (3 < w.length))).length < 2) :
    ∀ (cards : List String) (pageText : String) (n : Nat),
      extractLoop (keywordsOf hotelName) n (cards.take 15) = .skip ∧
      (extract_rate_from_booking cards pageText hotelName n).rate = none ∧
      (extract_rate_from_booking cards pageText hotelName n).availability_status ≠
        .available := by
  have hk : (keywordsOf hotelName).length < 2 := by
    unfold keywordsOf
    rw [List.length_take, List.length_map]
    omega
  have hcard : ∀ (n : Nat) (c : String),
      processCard (keywordsOf hotelName) n c = .skip := by
    intro n c
    have hle : (keywordsOf hotelName).countP (fun w => containsStr (toLowerStr c) w) ≤
        (keywordsOf hotelName).length := List.countP_le_length _
    unfold processCard
    rw [if_pos (by omega)]
  have hloop : ∀ (n : Nat) (l : List String),
      extractLoop (keywordsOf hotelName) n l = .skip := by
    intro n l
    induction l with
    | nil => rfl
    | cons c cs ih =>
      simp only [extractLoop, hcard n c]
      exact ih
  intro cards pageText n
  refine ⟨hloop n (cards.take 15), ?_, ?_⟩
  · simp only [extract_rate_from_booking, hloop n (cards.take 15)]
    rcases pageFallback_cases pageText with h2 | h2 <;> rw [h2]
  · simp only [extract_rate_from_booking, hloop n (cards.take 15)]
    rcases pageFallback_cases pageText with h2 | h2 <;> rw [h2] <;> simp

/-- Witness for C10 with hotel name "The Ritz" (single keyword "ritz"). -/
theorem claim_C10_witness :
    extractLoop (keywordsOf "The Ritz") 1
      (["Ritz Hotel Toronto CA$500 CA$500"].take 15) = .skip ∧
    (extract_rate_from_booking ["Ritz Hotel Toronto CA$500 CA$500"] "page"
      "The Ritz" 1).rate = none ∧
    (extract_rate_from_booking ["Ritz Hotel Toronto CA$500 CA$500"] "page"
      "The Ritz" 1).availability_status ≠ .available :=
  claim_C10 "The Ritz" (by decide) ["Ritz Hotel Toronto CA$500 CA$500"] "page" 1

end PitchPrice
